import Mathlib

/-!
Shallow embedding of `lease/read_proxy.go` (package `lease`): the
auto-refreshing read lease / read proxy.

External collaborators (the wrapped read lease, the file leaser, the
content-source function, `io.Copy`, stream `Close`, lease `Downgrade`)
are modelled by an explicit environment record giving the outcome of each
external call an operation may perform.  Every embedded operation returns,
besides its Go return values and the updated proxy state, a trace of the
external calls and slot accesses it performed, so claims about "is invoked
exactly once / at most once / not at all" become statements about the trace.
-/

deriving instance DecidableEq for Except

namespace Lease

/-- Go `error` values as they occur in this file: the sentinel
`*RevokedError`, opaque primitive errors from collaborators (tagged by a
number), `fmt.Errorf("<msg>: %v", e)` wrapping (which produces a fresh
error value that is *not* a `*RevokedError`), and the size-mismatch error
`fmt.Errorf("Copied %v bytes; expected %v", ...)`. -/
inductive Err where
  | revokedError : Err
  | primErr (tag : Nat) : Err
  | wrapErr (msg : String) (e : Err) : Err
  | mismatchErr (copied expected : Int) : Err
deriving DecidableEq, Repr

/-- `isRevokedErr` from read_proxy.go: a type assertion to `*RevokedError`.
A `nil` error is modelled as `none` at use sites; wrapping with
`fmt.Errorf` loses the concrete type, so only the bare sentinel matches. -/
def isRevokedErr : Err → Bool
  | .revokedError => true
  | _ => false

/-- `isRevokedErr` applied to a possibly-nil Go error. -/
def isRevokedErrO : Option Err → Bool
  | some e => isRevokedErr e
  | none => false

/-- Events recording external calls and slot accesses performed by the
proxy.  Lease identities are natural numbers. -/
inductive Ev where
  | slotRead : Ev
  | slotWrite (l : Nat) : Ev
  | wrappedReadEv (l : Nat) : Ev
  | wrappedSeekEv (l : Nat) : Ev
  | wrappedReadAtEv (l : Nat) : Ev
  | wrappedUpgradeEv (l : Nat) : Ev
  | wrappedRevokeEv (l : Nat) : Ev
  | newFileEv : Ev
  | userFnEv : Ev
  | copyEv : Ev
  | closeEv : Ev
  | getContentsEv : Ev
  | rwlReadEv (l : Nat) : Ev
  | rwlSeekEv (l : Nat) : Ev
  | rwlReadAtEv (l : Nat) : Ev
  | downgradeEv (l : Nat) : Ev
  | revokeEv (l : Nat) : Ev
deriving DecidableEq, Repr

/-- Mutable state of `autoRefreshingReadLease` (the `ReadProxy` struct):
the declared size, the `revoked` flag, and the `wrapped` ownership slot
(`nil` or the identity of the held read lease). -/
structure ProxyState where
  size : Int
  revoked : Bool
  wrapped : Option Nat
deriving DecidableEq, Repr

/-- Outcomes of the external calls one proxy operation may perform.
`× Option Err` pairs model Go's `(value, error)` returns; `Except` models
calls whose success yields a fresh lease identity. -/
structure Env where
  wrappedRead : Int × Option Err
  wrappedSeek : Int × Option Err
  wrappedReadAt : Int × Option Err
  wrappedUpgrade : Except Err Nat
  newFile : Except Err Nat
  userFn : Option Err
  copyRes : Except Err Int
  closeRes : Option Err
  destroyDowngrade : Except Err Nat
  saveDowngrade : Except Err Nat
  rwlRead : Int × Option Err
  rwlSeek : Int × Option Err
  rwlReadAt : Int × Option Err
deriving Repr

/-- `destroyReadWriteLease`: downgrade the read/write lease; on failure log
and stop, on success revoke the resulting read lease.  Only the trace is
observable (all errors are swallowed into the log). -/
def destroyReadWriteLease (env : Env) (rwl : Nat) : List Ev :=
  match env.destroyDowngrade with
  | .error _ => [.downgradeEv rwl]
  | .ok rl2 => [.downgradeEv rwl, .revokeEv rl2]

/-- `autoRefreshingReadLease.getContents`: allocate a fresh read/write
lease from the leaser, open the content source, copy into the lease,
close the stream (merging a close error only when no earlier error
exists), check the copied byte count against the declared size, and
destroy the allocated lease on every failing exit path. -/
def getContents (s : ProxyState) (env : Env) : Except Err Nat × List Ev :=
  match env.newFile with
  | .error e => (.error (.wrapErr "NewFile" e), [.newFileEv])
  | .ok rwl =>
    match env.userFn with
    | some e =>
      (.error (.wrapErr "User function" e),
       [.newFileEv, .userFnEv] ++ destroyReadWriteLease env rwl)
    | none =>
      match env.copyRes with
      | .error e =>
        (.error (.wrapErr "Copy" e),
         [.newFileEv, .userFnEv, .copyEv, .closeEv] ++ destroyReadWriteLease env rwl)
      | .ok copied =>
        if copied = s.size then
          match env.closeRes with
          | some ce =>
            (.error (.wrapErr "Close" ce),
             [.newFileEv, .userFnEv, .copyEv, .closeEv] ++ destroyReadWriteLease env rwl)
          | none => (.ok rwl, [.newFileEv, .userFnEv, .copyEv, .closeEv])
        else
          (.error (.mismatchErr copied s.size),
           [.newFileEv, .userFnEv, .copyEv, .closeEv] ++ destroyReadWriteLease env rwl)

/-- `autoRefreshingReadLease.saveContents`: downgrade the read/write lease
and store the result in the `wrapped` slot; a downgrade failure is only
logged and leaves the state untouched. -/
def saveContents (s : ProxyState) (env : Env) (rwl : Nat) : ProxyState × List Ev :=
  match env.saveDowngrade with
  | .error _ => (s, [.downgradeEv rwl])
  | .ok rl2 => ({ s with wrapped := some rl2 }, [.downgradeEv rwl, .slotWrite rl2])

/-- Result of an accessor: Go's `(n, err)` pair, the updated proxy state,
and the trace of external calls. -/
structure AccResult where
  val : Int
  err : Option Err
  state : ProxyState
  trace : List Ev
deriving Repr

/-- Shared tail of the accessors after the fast path has failed or was
unavailable: `getContents`, then `defer saveContents` around serving from
the read/write lease.  `n0` is the leftover value of the named return
variable, `serve` the outcome of the read-style call on the fresh lease.
The `defer` runs after the serve call, and the serve result is returned
regardless of the downgrade outcome. -/
def deriveAndServe (s : ProxyState) (env : Env) (n0 : Int)
    (serve : Int × Option Err) (rwlEv : Nat → Ev) (pre : List Ev) : AccResult :=
  match getContents s env with
  | (.error e, tr) =>
    ⟨n0, some (.wrapErr "getContents" e), s, pre ++ [.getContentsEv] ++ tr⟩
  | (.ok rwl, tr) =>
    let st := saveContents s env rwl
    ⟨serve.1, serve.2, st.1,
     pre ++ [.getContentsEv] ++ tr ++ [rwlEv rwl] ++ st.2⟩

/-- `autoRefreshingReadLease.Read`.  The `ctx` argument mirrors the Go
signature; as in the source it is never consumed. -/
def Read (ctx : Nat) (s : ProxyState) (env : Env) : AccResult :=
  if s.revoked then ⟨0, some .revokedError, s, []⟩
  else
    match s.wrapped with
    | some l =>
      let r := env.wrappedRead
      if isRevokedErrO r.2 then
        deriveAndServe s env r.1 env.rwlRead Ev.rwlReadEv [.slotRead, .wrappedReadEv l]
      else ⟨r.1, r.2, s, [.slotRead, .wrappedReadEv l]⟩
    | none => deriveAndServe s env 0 env.rwlRead Ev.rwlReadEv [.slotRead]

/-- `autoRefreshingReadLease.Seek`. -/
def Seek (ctx : Nat) (s : ProxyState) (env : Env) : AccResult :=
  if s.revoked then ⟨0, some .revokedError, s, []⟩
  else
    match s.wrapped with
    | some l =>
      let r := env.wrappedSeek
      if isRevokedErrO r.2 then
        deriveAndServe s env r.1 env.rwlSeek Ev.rwlSeekEv [.slotRead, .wrappedSeekEv l]
      else ⟨r.1, r.2, s, [.slotRead, .wrappedSeekEv l]⟩
    | none => deriveAndServe s env 0 env.rwlSeek Ev.rwlSeekEv [.slotRead]

/-- `autoRefreshingReadLease.ReadAt`. -/
def ReadAt (ctx : Nat) (s : ProxyState) (env : Env) : AccResult :=
  if s.revoked then ⟨0, some .revokedError, s, []⟩
  else
    match s.wrapped with
    | some l =>
      let r := env.wrappedReadAt
      if isRevokedErrO r.2 then
        deriveAndServe s env r.1 env.rwlReadAt Ev.rwlReadAtEv [.slotRead, .wrappedReadAtEv l]
      else ⟨r.1, r.2, s, [.slotRead, .wrappedReadAtEv l]⟩
    | none => deriveAndServe s env 0 env.rwlReadAt Ev.rwlReadAtEv [.slotRead]

/-- Result of `Upgrade`: the returned read/write lease or error, the
updated state, and the trace. -/
structure UpResult where
  res : Except Err Nat
  state : ProxyState
  trace : List Ev
deriving Repr

/-- Tail of `Upgrade` after the fast path: build the read/write lease
anew via `getContents`; the deferred closure sets `revoked` exactly when
the returned error is nil. -/
def upgradeDerive (s : ProxyState) (env : Env) (pre : List Ev) : UpResult :=
  match getContents s env with
  | (.error e, tr) =>
    ⟨.error (.wrapErr "getContents" e), s, pre ++ [.getContentsEv] ++ tr⟩
  | (.ok rwl, tr) =>
    ⟨.ok rwl, { s with revoked := true }, pre ++ [.getContentsEv] ++ tr⟩

/-- `autoRefreshingReadLease.Upgrade`: fail if already revoked; otherwise
try to upgrade the held lease in place, falling back to a fresh
derivation when the held lease reports revocation.  The deferred closure
marks the proxy revoked on every path whose returned error is nil.  The
`wrapped` slot is never modified. -/
def Upgrade (s : ProxyState) (env : Env) : UpResult :=
  if s.revoked then ⟨.error .revokedError, s, []⟩
  else
    match s.wrapped with
    | some l =>
      match env.wrappedUpgrade with
      | .ok rwl =>
        ⟨.ok rwl, { s with revoked := true }, [.slotRead, .wrappedUpgradeEv l]⟩
      | .error e =>
        if isRevokedErr e then
          upgradeDerive s env [.slotRead, .wrappedUpgradeEv l]
        else ⟨.error e, s, [.slotRead, .wrappedUpgradeEv l]⟩
    | none => upgradeDerive s env [.slotRead]

/-- `autoRefreshingReadLease.Destroy`: set `revoked` and, if a lease is
held, revoke it.  The `wrapped` slot itself is read but never cleared. -/
def Destroy (s : ProxyState) : ProxyState × List Ev :=
  match s.wrapped with
  | some l => ({ s with revoked := true }, [.slotRead, .wrappedRevokeEv l])
  | none => ({ s with revoked := true }, [.slotRead])

/-- `autoRefreshingReadLease.Size`: returns the constant size field. -/
def Size (s : ProxyState) : Int := s.size

end Lease

open Lease

/-- A baseline environment in which every external call succeeds and the
content source delivers exactly one byte. -/
def env0 : Env :=
  ⟨(0, none), (0, none), (0, none), .ok 6, .ok 2, none, .ok 1, none,
   .ok 3, .ok 4, (0, none), (0, none), (0, none)⟩

/-- A live proxy of size 1 holding lease 0. -/
def s0 : ProxyState := ⟨1, false, some 0⟩

/-- A dead (permanently revoked) proxy still holding lease 0 in its slot. -/
def s0dead : ProxyState := ⟨1, true, some 0⟩

/-- The trace of `getContents` never contains the derivation marker and
invokes the content source at most once. -/
theorem getContents_count (s : ProxyState) (env : Env) :
    (getContents s env).2.count Ev.getContentsEv = 0 ∧
    (getContents s env).2.count Ev.userFnEv ≤ 1 := by
  unfold getContents destroyReadWriteLease
  rcases env.newFile with e | rwl <;>
  rcases henv : env.userFn with _ | e1 <;>
  rcases env.copyRes with e2 | copied <;>
  rcases env.destroyDowngrade with e3 | rl2 <;>
  rcases env.closeRes with _ | ce <;>
  simp [henv] <;>
  split <;> simp [List.count_cons]

/-- The trace of `saveContents` never contains the derivation marker nor a
content-source invocation. -/
theorem saveContents_count (s : ProxyState) (env : Env) (rwl : Nat) :
    (saveContents s env rwl).2.count Ev.getContentsEv = 0 ∧
    (saveContents s env rwl).2.count Ev.userFnEv = 0 := by
  unfold saveContents
  rcases env.saveDowngrade with e | rl2 <;> simp

/-- `deriveAndServe` runs the derivation helper exactly once and invokes
the content source at most once, provided its prefix trace is clean. -/
theorem deriveAndServe_count (s : ProxyState) (env : Env) (n0 : Int)
    (serve : Int × Option Err) (f : Nat → Ev) (pre : List Ev)
    (hf1 : ∀ l, (f l = Ev.getContentsEv) = False)
    (hf2 : ∀ l, (f l = Ev.userFnEv) = False)
    (h1 : pre.count Ev.getContentsEv = 0) (h2 : pre.count Ev.userFnEv = 0) :
    (deriveAndServe s env n0 serve f pre).trace.count Ev.getContentsEv = 1 ∧
    (deriveAndServe s env n0 serve f pre).trace.count Ev.userFnEv ≤ 1 := by
  have hgc := getContents_count s env
  unfold deriveAndServe
  rcases hg : getContents s env with ⟨r, tr⟩
  rw [hg] at hgc
  have hgc1 : tr.count Ev.getContentsEv = 0 := hgc.1
  have hgc2 : tr.count Ev.userFnEv ≤ 1 := hgc.2
  rcases r with e | rwl
  · simp only [List.count_append, List.count_singleton, List.count_cons,
      List.count_nil, h1, h2]
    simp [hgc1]
    omega
  · have hsc := saveContents_count s env rwl
    simp only [List.count_append, List.count_singleton, List.count_cons,
      List.count_nil, h1, h2, hgc1, hgc2, hsc.1, hsc.2, hf1, hf2]
    simp [hf1, hf2, hgc2]

/-- C1: on a live proxy holding a lease, if the held lease reports the
revocation sentinel on Read, Seek or ReadAt, the content-derivation helper
runs exactly once and the content source is invoked at most once before
the accessor returns; on the fast path (any other outcome from the held
lease) neither is invoked at all. -/
theorem C1_recovery_call_accounting (s : ProxyState) (env : Env) (ctx l : Nat)
    (hrev : s.revoked = false) (hw : s.wrapped = some l) :
    ((isRevokedErrO env.wrappedRead.2 = true →
        (Read ctx s env).trace.count Ev.getContentsEv = 1 ∧
        (Read ctx s env).trace.count Ev.userFnEv ≤ 1) ∧
     (isRevokedErrO env.wrappedRead.2 = false →
        (Read ctx s env).trace.count Ev.getContentsEv = 0 ∧
        (Read ctx s env).trace.count Ev.userFnEv = 0)) ∧
    ((isRevokedErrO env.wrappedSeek.2 = true →
        (Seek ctx s env).trace.count Ev.getContentsEv = 1 ∧
        (Seek ctx s env).trace.count Ev.userFnEv ≤ 1) ∧
     (isRevokedErrO env.wrappedSeek.2 = false →
        (Seek ctx s env).trace.count Ev.getContentsEv = 0 ∧
        (Seek ctx s env).trace.count Ev.userFnEv = 0)) ∧
    ((isRevokedErrO env.wrappedReadAt.2 = true →
        (ReadAt ctx s env).trace.count Ev.getContentsEv = 1 ∧
        (ReadAt ctx s env).trace.count Ev.userFnEv ≤ 1) ∧
     (isRevokedErrO env.wrappedReadAt.2 = false →
        (ReadAt ctx s env).trace.count Ev.getContentsEv = 0 ∧
        (ReadAt ctx s env).trace.count Ev.userFnEv = 0)) := by
  refine ⟨⟨?_, ?_⟩, ⟨?_, ?_⟩, ?_, ?_⟩ <;> intro h
  · have hd := deriveAndServe_count s env env.wrappedRead.1 env.rwlRead
      Ev.rwlReadEv [Ev.slotRead, Ev.wrappedReadEv l]
      (by simp) (by simp) (by simp) (by simp)
    simpa [Read, hrev, hw, h] using hd
  · simp [Read, hrev, hw, h]
  · have hd := deriveAndServe_count s env env.wrappedSeek.1 env.rwlSeek
      Ev.rwlSeekEv [Ev.slotRead, Ev.wrappedSeekEv l]
      (by simp) (by simp) (by simp) (by simp)
    simpa [Seek, hrev, hw, h] using hd
  · simp [Seek, hrev, hw, h]
  · have hd := deriveAndServe_count s env env.wrappedReadAt.1 env.rwlReadAt
      Ev.rwlReadAtEv [Ev.slotRead, Ev.wrappedReadAtEv l]
      (by simp) (by simp) (by simp) (by simp)
    simpa [ReadAt, hrev, hw, h] using hd
  · simp [ReadAt, hrev, hw, h]

/-- An environment whose held-lease read-style operations all report the
revocation sentinel, while derivation succeeds with a one-byte copy. -/
def envInv : Env :=
  ⟨(0, some .revokedError), (0, some .revokedError), (0, some .revokedError),
   .error .revokedError, .ok 2, none, .ok 1, none, .ok 3, .ok 4,
   (1, none), (0, none), (1, none)⟩

/-- Witness for C1 at a concrete live proxy and invalidating environment. -/
theorem C1_recovery_call_accounting_witness :
    (Read 0 s0 envInv).trace.count Ev.getContentsEv = 1 ∧
    (Read 0 s0 envInv).trace.count Ev.userFnEv ≤ 1 :=
  (C1_recovery_call_accounting s0 envInv 0 0 rfl rfl).1.1 (by decide)

/-- If `getContents` fails, `deriveAndServe` returns the leftover value,
the wrapped derivation error, and the state unchanged. -/
theorem deriveAndServe_error (s : ProxyState) (env : Env) (n0 : Int)
    (serve : Int × Option Err) (f : Nat → Ev) (pre : List Ev) (e : Err)
    (hg : (getContents s env).1 = Except.error e) :
    (deriveAndServe s env n0 serve f pre).val = n0 ∧
    (deriveAndServe s env n0 serve f pre).err = some (Err.wrapErr "getContents" e) ∧
    (deriveAndServe s env n0 serve f pre).state = s := by
  unfold deriveAndServe
  rcases hgg : getContents s env with ⟨r, tr⟩
  rw [hgg] at hg
  have hr : r = Except.error e := hg
  subst hr
  simp

/-- If `getContents` succeeds, `deriveAndServe` returns the serve
result verbatim and the state produced by `saveContents`. -/
theorem deriveAndServe_ok (s : ProxyState) (env : Env) (n0 : Int)
    (serve : Int × Option Err) (f : Nat → Ev) (pre : List Ev) (rwl : Nat)
    (hg : (getContents s env).1 = Except.ok rwl) :
    (deriveAndServe s env n0 serve f pre).val = serve.1 ∧
    (deriveAndServe s env n0 serve f pre).err = serve.2 ∧
    (deriveAndServe s env n0 serve f pre).state = (saveContents s env rwl).1 := by
  unfold deriveAndServe
  rcases hgg : getContents s env with ⟨r, tr⟩
  rw [hgg] at hg
  have hr : r = Except.ok rwl := hg
  subst hr
  simp

/-- An environment whose held-lease operations report revocation and in
which the leaser cannot allocate a fresh lease. -/
def envFailAlloc : Env :=
  ⟨(0, some .revokedError), (0, some .revokedError), (0, some .revokedError),
   .error .revokedError, .error (.primErr 7), none, .ok 1, none, .ok 3, .ok 4,
   (1, none), (0, none), (1, none)⟩

/-- Counterexample to C2 as stated: after an invalidated read whose
re-derivation fails, the ownership slot still holds the old lease — it is
not cleared to the no-lease state. -/
theorem C2_counterexample :
    (Read 0 s0 envFailAlloc).err =
      some (Err.wrapErr "getContents" (Err.wrapErr "NewFile" (Err.primErr 7))) ∧
    (Read 0 s0 envFailAlloc).state.wrapped = some 0 ∧
    (Read 0 s0 envFailAlloc).state.wrapped ≠ none := by decide

/-- C2 (amended): when the held lease reports revocation and derivation
fails, each accessor returns a wrapped derivation error and leaves the
proxy state entirely unchanged — the slot still holds the invalidated
lease and `revoked` is still false — so a later call can retry
derivation. -/
theorem C2_failed_recovery_retryable (s : ProxyState) (env : Env)
    (ctx l : Nat) (e : Err)
    (hrev : s.revoked = false) (hw : s.wrapped = some l)
    (hgc : (getContents s env).1 = Except.error e) :
    (isRevokedErrO env.wrappedRead.2 = true →
       (Read ctx s env).err = some (Err.wrapErr "getContents" e) ∧
       (Read ctx s env).state = s ∧ (Read ctx s env).state.revoked = false) ∧
    (isRevokedErrO env.wrappedSeek.2 = true →
       (Seek ctx s env).err = some (Err.wrapErr "getContents" e) ∧
       (Seek ctx s env).state = s ∧ (Seek ctx s env).state.revoked = false) ∧
    (isRevokedErrO env.wrappedReadAt.2 = true →
       (ReadAt ctx s env).err = some (Err.wrapErr "getContents" e) ∧
       (ReadAt ctx s env).state = s ∧ (ReadAt ctx s env).state.revoked = false) := by
  refine ⟨fun h => ?_, fun h => ?_, fun h => ?_⟩
  · have hd := deriveAndServe_error s env env.wrappedRead.1 env.rwlRead
      Ev.rwlReadEv [Ev.slotRead, Ev.wrappedReadEv l] e hgc
    simp only [Read, hrev, hw, h]
    simp [hd.2.1, hd.2.2, hrev]
  · have hd := deriveAndServe_error s env env.wrappedSeek.1 env.rwlSeek
      Ev.rwlSeekEv [Ev.slotRead, Ev.wrappedSeekEv l] e hgc
    simp only [Seek, hrev, hw, h]
    simp [hd.2.1, hd.2.2, hrev]
  · have hd := deriveAndServe_error s env env.wrappedReadAt.1 env.rwlReadAt
      Ev.rwlReadAtEv [Ev.slotRead, Ev.wrappedReadAtEv l] e hgc
    simp only [ReadAt, hrev, hw, h]
    simp [hd.2.1, hd.2.2, hrev]

/-- Witness for the amended C2 at a concrete proxy and failing leaser. -/
theorem C2_failed_recovery_retryable_witness :
    (Read 0 s0 envFailAlloc).err =
      some (Err.wrapErr "getContents" (Err.wrapErr "NewFile" (Err.primErr 7))) ∧
    (Read 0 s0 envFailAlloc).state = s0 ∧
    (Read 0 s0 envFailAlloc).state.revoked = false :=
  (C2_failed_recovery_retryable s0 envFailAlloc 0 0
    (Err.wrapErr "NewFile" (Err.primErr 7)) rfl rfl (by decide)).1 (by decide)

/-- An environment in which the held lease reports revocation, derivation
succeeds, but the downgrade performed by `saveContents` fails. -/
def envSaveFail : Env :=
  ⟨(0, some .revokedError), (0, some .revokedError), (0, some .revokedError),
   .error .revokedError, .ok 2, none, .ok 1, none, .ok 3, .error (.primErr 9),
   (1, none), (0, none), (1, none)⟩

/-- Counterexample to C8 as stated: when derivation succeeds but the
downgrade fails, the ownership slot is not left empty — it still holds the
old invalidated lease. -/
theorem C8_counterexample :
    envSaveFail.saveDowngrade = Except.error (Err.primErr 9) ∧
    (Read 0 s0 envSaveFail).val = 1 ∧
    (Read 0 s0 envSaveFail).err = none ∧
    (Read 0 s0 envSaveFail).state.wrapped = some 0 ∧
    (Read 0 s0 envSaveFail).state.wrapped ≠ none := by decide

/-- C8 (amended): when derivation succeeds but the downgrade of the fresh
mutable lease fails, the failure is only logged: each accessor returns the
result obtained from the mutable lease unchanged, and the proxy state is
left exactly as it was before the call (the slot is not replaced; it is
empty only if it already was empty). -/
theorem C8_downgrade_failure_logged (s : ProxyState) (env : Env)
    (ctx rwl : Nat) (e : Err)
    (hrev : s.revoked = false)
    (hgc : (getContents s env).1 = Except.ok rwl)
    (hsv : env.saveDowngrade = Except.error e)
    (htrig : s.wrapped = none ∨
      (isRevokedErrO env.wrappedRead.2 = true ∧
       isRevokedErrO env.wrappedSeek.2 = true ∧
       isRevokedErrO env.wrappedReadAt.2 = true)) :
    (Read ctx s env).val = env.rwlRead.1 ∧
    (Read ctx s env).err = env.rwlRead.2 ∧
    (Read ctx s env).state = s ∧
    (Seek ctx s env).val = env.rwlSeek.1 ∧
    (Seek ctx s env).err = env.rwlSeek.2 ∧
    (Seek ctx s env).state = s ∧
    (ReadAt ctx s env).val = env.rwlReadAt.1 ∧
    (ReadAt ctx s env).err = env.rwlReadAt.2 ∧
    (ReadAt ctx s env).state = s := by
  have hsave : (saveContents s env rwl).1 = s := by
    unfold saveContents
    simp [hsv]
  have h1 := deriveAndServe_ok s env 0 env.rwlRead Ev.rwlReadEv [Ev.slotRead] rwl hgc
  have h2 := deriveAndServe_ok s env 0 env.rwlSeek Ev.rwlSeekEv [Ev.slotRead] rwl hgc
  have h3 := deriveAndServe_ok s env 0 env.rwlReadAt Ev.rwlReadAtEv [Ev.slotRead] rwl hgc
  rcases htrig with hw | ⟨hr, hs, ha⟩
  · simp only [Read, Seek, ReadAt, hrev, hw]
    simp [h1.1, h1.2.1, h1.2.2, h2.1, h2.2.1, h2.2.2, h3.1, h3.2.1, h3.2.2, hsave]
  · rcases hww : s.wrapped with _ | l
    · simp only [Read, Seek, ReadAt, hrev, hww]
      simp [h1.1, h1.2.1, h1.2.2, h2.1, h2.2.1, h2.2.2, h3.1, h3.2.1, h3.2.2, hsave]
    · have g1 := deriveAndServe_ok s env env.wrappedRead.1 env.rwlRead
        Ev.rwlReadEv [Ev.slotRead, Ev.wrappedReadEv l] rwl hgc
      have g2 := deriveAndServe_ok s env env.wrappedSeek.1 env.rwlSeek
        Ev.rwlSeekEv [Ev.slotRead, Ev.wrappedSeekEv l] rwl hgc
      have g3 := deriveAndServe_ok s env env.wrappedReadAt.1 env.rwlReadAt
        Ev.rwlReadAtEv [Ev.slotRead, Ev.wrappedReadAtEv l] rwl hgc
      simp only [Read, Seek, ReadAt, hrev, hww, hr, hs, ha]
      simp [g1.1, g1.2.1, g1.2.2, g2.1, g2.2.1, g2.2.2, g3.1, g3.2.1, g3.2.2, hsave]

/-- Witness for the amended C8 at a concrete proxy with a failing
downgrade. -/
theorem C8_downgrade_failure_logged_witness :
    (Read 0 s0 envSaveFail).val = envSaveFail.rwlRead.1 ∧
    (Read 0 s0 envSaveFail).err = envSaveFail.rwlRead.2 ∧
    (Read 0 s0 envSaveFail).state = s0 ∧
    (Seek 0 s0 envSaveFail).val = envSaveFail.rwlSeek.1 ∧
    (Seek 0 s0 envSaveFail).err = envSaveFail.rwlSeek.2 ∧
    (Seek 0 s0 envSaveFail).state = s0 ∧
    (ReadAt 0 s0 envSaveFail).val = envSaveFail.rwlReadAt.1 ∧
    (ReadAt 0 s0 envSaveFail).err = envSaveFail.rwlReadAt.2 ∧
    (ReadAt 0 s0 envSaveFail).state = s0 :=
  C8_downgrade_failure_logged s0 envSaveFail 0 2 (Err.primErr 9)
    rfl (by decide) rfl (Or.inr ⟨by decide, by decide, by decide⟩)

/-- C3: `revoked` is monotonic, and every operation called on a revoked
proxy fails immediately with the revocation sentinel, changes no state and
performs no external call (its trace is empty); `Destroy` keeps the flag
set. -/
theorem C3_dead_proxy_terminal (s : ProxyState) (env : Env) (ctx : Nat)
    (h : s.revoked = true) :
    Read ctx s env = ⟨0, some .revokedError, s, []⟩ ∧
    Seek ctx s env = ⟨0, some .revokedError, s, []⟩ ∧
    ReadAt ctx s env = ⟨0, some .revokedError, s, []⟩ ∧
    Upgrade s env = ⟨.error .revokedError, s, []⟩ ∧
    (Destroy s).1.revoked = true := by
  rcases hw : s.wrapped with _ | l <;>
    simp [Read, Seek, ReadAt, Upgrade, Destroy, h, hw]

/-- Witness for C3 at a concrete dead proxy. -/
theorem C3_dead_proxy_terminal_witness :
    Read 0 s0dead env0 = ⟨0, some .revokedError, s0dead, []⟩ ∧
    Seek 0 s0dead env0 = ⟨0, some .revokedError, s0dead, []⟩ ∧
    ReadAt 0 s0dead env0 = ⟨0, some .revokedError, s0dead, []⟩ ∧
    Upgrade s0dead env0 = ⟨.error .revokedError, s0dead, []⟩ ∧
    (Destroy s0dead).1.revoked = true :=
  C3_dead_proxy_terminal s0dead env0 0 rfl

/-- An environment in which derivation allocates lease 2, copies exactly
the declared one byte, but closing the content stream fails. -/
def envCloseFail : Env :=
  ⟨(0, none), (0, none), (0, none), .ok 6, .ok 2, none, .ok 1,
   some (.primErr 5), .ok 3, .ok 4, (0, none), (0, none), (0, none)⟩

/-- An environment in which derivation copies 5 bytes against a declared
size of 1 (everything else succeeds). -/
def envMismatch : Env :=
  ⟨(0, none), (0, none), (0, none), .ok 6, .ok 2, none, .ok 5, none,
   .ok 3, .ok 4, (0, none), (0, none), (0, none)⟩

/-- Counterexample to C4 as stated: the copy completes without an I/O
error and copies exactly the declared size, yet the helper still returns
an error, because closing the content stream failed. -/
theorem C4_counterexample :
    envCloseFail.copyRes = Except.ok s0.size ∧
    (getContents s0 envCloseFail).1 =
      Except.error (Err.wrapErr "Close" (Err.primErr 5)) := by decide

/-- C4 (amended): when the copy completes without an I/O error and the
stream close also succeeds, the helper fails exactly when the copied byte
count differs from the declared size; a mismatch is always reported as
the mismatch error (never silently truncated or padded) and triggers
destruction of the mutable lease allocated for the attempt. -/
theorem C4_size_mismatch_is_error (s : ProxyState) (env : Env)
    (rwl : Nat) (copied : Int)
    (hnf : env.newFile = Except.ok rwl) (huf : env.userFn = none)
    (hcp : env.copyRes = Except.ok copied) :
    (env.closeRes = none →
      ((∃ e, (getContents s env).1 = Except.error e) ↔ copied ≠ s.size)) ∧
    (copied ≠ s.size →
      (getContents s env).1 = Except.error (Err.mismatchErr copied s.size) ∧
      Ev.downgradeEv rwl ∈ (getContents s env).2) := by
  unfold getContents destroyReadWriteLease
  simp only [hnf, huf, hcp]
  constructor
  · intro hcl
    by_cases hsz : copied = s.size <;> simp [hcl, hsz]
  · intro hne
    rcases hd : env.destroyDowngrade with e | rl2 <;> simp [hne, hd]

/-- Witness for the amended C4 at a concrete five-byte copy against a
declared size of one. -/
theorem C4_size_mismatch_is_error_witness :
    (envMismatch.closeRes = none →
      ((∃ e, (getContents s0 envMismatch).1 = Except.error e) ↔ (5 : Int) ≠ s0.size)) ∧
    ((5 : Int) ≠ s0.size →
      (getContents s0 envMismatch).1 = Except.error (Err.mismatchErr 5 s0.size) ∧
      Ev.downgradeEv 2 ∈ (getContents s0 envMismatch).2) :=
  C4_size_mismatch_is_error s0 envMismatch 2 5 rfl rfl rfl

/-- C5: whenever the leaser has allocated a mutable lease and the helper
then fails for any reason, the trace ends with the destruction of that
lease (a downgrade, followed by a revoke exactly when the downgrade
succeeded), and the helper's returned result is unaffected by the outcome
of that cleanup. -/
theorem C5_failed_derivation_destroys_lease (s : ProxyState) (env : Env)
    (rwl : Nat) (e : Err)
    (hnf : env.newFile = Except.ok rwl)
    (he : (getContents s env).1 = Except.error e) :
    (∃ pre, (getContents s env).2 = pre ++ destroyReadWriteLease env rwl) ∧
    (destroyReadWriteLease env rwl = [Ev.downgradeEv rwl] ∨
      ∃ rl2, env.destroyDowngrade = Except.ok rl2 ∧
        destroyReadWriteLease env rwl = [Ev.downgradeEv rwl, Ev.revokeEv rl2]) ∧
    (∀ d, (getContents s { env with destroyDowngrade := d }).1 =
      (getContents s env).1) := by
  refine ⟨?_, ?_, ?_⟩
  · unfold getContents at he ⊢
    simp only [hnf] at he ⊢
    rcases hu : env.userFn with _ | e1 <;> simp only [hu] at he ⊢
    · rcases hc : env.copyRes with e2 | copied <;> simp only [hc] at he ⊢
      · exact ⟨_, rfl⟩
      · by_cases hsz : copied = s.size
        · rw [if_pos hsz] at he ⊢
          rcases hcl : env.closeRes with _ | ce <;> simp only [hcl] at he ⊢
          · exact absurd he (by simp)
          · exact ⟨_, rfl⟩
        · rw [if_neg hsz] at he ⊢
          exact ⟨_, rfl⟩
    · exact ⟨_, rfl⟩
  · unfold destroyReadWriteLease
    rcases hd : env.destroyDowngrade with e2 | rl2 <;> simp [hd]
  · intro d
    unfold getContents
    rcases hu : env.userFn with _ | e1 <;>
    rcases hc : env.copyRes with e2 | copied <;>
    rcases hnf2 : env.newFile with e3 | rwl2 <;>
    rcases hcl : env.closeRes with _ | ce <;>
    simp [hu, hc, hnf2, hcl] <;> split <;> simp

/-- Witness for C5 at the concrete mismatching-copy environment. -/
theorem C5_failed_derivation_destroys_lease_witness :
    (∃ pre, (getContents s0 envMismatch).2 =
      pre ++ destroyReadWriteLease envMismatch 2) ∧
    (getContents s0
        { envMismatch with destroyDowngrade := Except.error (Err.primErr 1) }).1 =
      (getContents s0 envMismatch).1 :=
  ⟨(C5_failed_derivation_destroys_lease s0 envMismatch 2
      (Err.mismatchErr 5 1) rfl (by decide)).1,
   (C5_failed_derivation_destroys_lease s0 envMismatch 2
      (Err.mismatchErr 5 1) rfl (by decide)).2.2 (Except.error (Err.primErr 1))⟩

/-- C6: once the content stream has been opened, it is closed on every
exit path; the first error on the path wins (a copy error or a size
mismatch is returned as such), and a stream-close error is surfaced to
the caller exactly when the copy itself succeeded with the declared byte
count. -/
theorem C6_first_error_wins (s : ProxyState) (env : Env) (rwl : Nat)
    (hnf : env.newFile = Except.ok rwl) (huf : env.userFn = none) :
    Ev.closeEv ∈ (getContents s env).2 ∧
    (∀ e, env.copyRes = Except.error e →
      (getContents s env).1 = Except.error (Err.wrapErr "Copy" e)) ∧
    (∀ copied, env.copyRes = Except.ok copied → copied ≠ s.size →
      (getContents s env).1 = Except.error (Err.mismatchErr copied s.size)) ∧
    (∀ ce, env.closeRes = some ce →
      ((getContents s env).1 = Except.error (Err.wrapErr "Close" ce) ↔
        env.copyRes = Except.ok s.size)) := by
  unfold getContents destroyReadWriteLease
  simp only [hnf, huf]
  refine ⟨?_, ?_, ?_, ?_⟩
  · rcases hc : env.copyRes with e2 | copied <;>
      rcases hd : env.destroyDowngrade with e3 | rl2 <;>
      rcases hcl : env.closeRes with _ | ce <;>
      simp [hc, hd, hcl] <;> split <;> simp
  · intro e hc
    rcases hd : env.destroyDowngrade with e3 | rl2 <;> simp [hc, hd]
  · intro copied hc hne
    rcases hd : env.destroyDowngrade with e3 | rl2 <;> simp [hc, hd, hne]
  · intro ce hcl
    rcases hc : env.copyRes with e2 | copied <;>
      rcases hd : env.destroyDowngrade with e3 | rl2 <;>
      simp [hc, hd, hcl] <;> by_cases hsz : copied = s.size <;>
      simp [hsz]

/-- Witness for C6 at the concrete close-failure environment. -/
theorem C6_first_error_wins_witness :
    Ev.closeEv ∈ (getContents s0 envCloseFail).2 ∧
    ((getContents s0 envCloseFail).1 =
        Except.error (Err.wrapErr "Close" (Err.primErr 5)) ↔
      envCloseFail.copyRes = Except.ok s0.size) :=
  ⟨(C6_first_error_wins s0 envCloseFail 2 rfl rfl).1,
   (C6_first_error_wins s0 envCloseFail 2 rfl rfl).2.2.2 (Err.primErr 5) rfl⟩

/-- C7: starting from a live proxy, `Upgrade` marks the proxy permanently
revoked exactly when it returns a mutable lease without error, and on
every failing path it leaves the proxy state completely unchanged. -/
theorem C7_upgrade_revokes_iff_success (s : ProxyState) (env : Env)
    (hrev : s.revoked = false) :
    ((Upgrade s env).state.revoked = true ↔
      ∃ rwl, (Upgrade s env).res = Except.ok rwl) ∧
    (∀ e, (Upgrade s env).res = Except.error e → (Upgrade s env).state = s) := by
  unfold Upgrade upgradeDerive
  rcases hw : s.wrapped with _ | l
  · rcases hgg : getContents s env with ⟨r, tr⟩
    rcases r with e | rwl <;> simp [hrev]
  · rcases hu : env.wrappedUpgrade with e | rwl
    · by_cases hre : isRevokedErr e
      · rcases hgg : getContents s env with ⟨r, tr⟩
        rcases r with e2 | rwl2 <;> simp [hrev, hre]
      · simp [hrev, hre]
    · simp [hrev]

/-- Witness for C7 at a concrete live proxy whose held lease upgrades
successfully. -/
theorem C7_upgrade_revokes_iff_success_witness :
    (Upgrade s0 env0).state.revoked = true ↔
      ∃ rwl, (Upgrade s0 env0).res = Except.ok rwl :=
  (C7_upgrade_revokes_iff_success s0 env0 rfl).1

/-- Counterexample to C9 as stated: on an already permanently revoked
proxy, `Destroy` still reads the ownership slot and revokes the held
lease again. -/
theorem C9_counterexample :
    s0dead.revoked = true ∧
    (Destroy s0dead).2 = [Ev.slotRead, Ev.wrappedRevokeEv 0] := by decide

/-- C9 (amended): once `revoked` is true, no subsequent operation
replaces the ownership slot; Read, Seek, ReadAt and Upgrade do not even
read it (they fail with an empty trace), but `Destroy` still reads the
slot and revokes the held lease each time it is called. -/
theorem C9_slot_never_replaced (s : ProxyState) (env : Env) (ctx : Nat)
    (h : s.revoked = true) :
    (Read ctx s env).state.wrapped = s.wrapped ∧ (Read ctx s env).trace = [] ∧
    (Seek ctx s env).state.wrapped = s.wrapped ∧ (Seek ctx s env).trace = [] ∧
    (ReadAt ctx s env).state.wrapped = s.wrapped ∧ (ReadAt ctx s env).trace = [] ∧
    (Upgrade s env).state.wrapped = s.wrapped ∧ (Upgrade s env).trace = [] ∧
    (Destroy s).1.wrapped = s.wrapped ∧
    (∀ l, Ev.slotWrite l ∉ (Destroy s).2) ∧
    (∀ l, s.wrapped = some l →
      (Destroy s).2 = [Ev.slotRead, Ev.wrappedRevokeEv l]) := by
  rcases hw : s.wrapped with _ | l <;>
    simp [Read, Seek, ReadAt, Upgrade, Destroy, h, hw]

/-- Witness for the amended C9 at a concrete dead proxy holding lease 0. -/
theorem C9_slot_never_replaced_witness :
    (Read 0 s0dead env0).state.wrapped = s0dead.wrapped ∧
    (Destroy s0dead).1.wrapped = s0dead.wrapped ∧
    (Destroy s0dead).2 = [Ev.slotRead, Ev.wrappedRevokeEv 0] := by
  have h := C9_slot_never_replaced s0dead env0 0 rfl
  exact ⟨h.1, h.2.2.2.2.2.2.2.2.1, h.2.2.2.2.2.2.2.2.2.2 0 rfl⟩

/-- C10: the accessors are entirely insensitive to the cancellation
context they receive — two calls differing only in the context produce
identical results, states and traces, so the context is never forwarded
to the content source during derivation. -/
theorem C10_context_ignored (s : ProxyState) (env : Env) (c1 c2 : Nat) :
    Read c1 s env = Read c2 s env ∧
    Seek c1 s env = Seek c2 s env ∧
    ReadAt c1 s env = ReadAt c2 s env :=
  ⟨rfl, rfl, rfl⟩
